import Mathlib

/-!
Verification development for the offline mutation queue and authenticated
request pipeline of the PetChain mobile app backend.

Shallow embedding of:
* `src/backend/services/syncService.ts` (mutation queue: `addToQueue`,
  `sync`, `syncItem`, `handleConflict`, `getStatus`, `updateStatus`,
  `getQueue`, `clearQueue`);
* `src/backend/middleware/apiInterceptors.ts` (`setupInterceptors`:
  request interceptor attaching the stored access token, response
  interceptor handling 401 with token refresh and a single retry);
* `src/backend/services/authService.ts` (`validateToken`, `decodeToken`).

JavaScript strings are modelled as `List Char`, JS numbers on the paths the
claims touch are integers (`Int`/`Nat`), `AsyncStorage` is modelled as
explicit state records, and the remote API is an oracle argument giving the
settled outcome of each transport call.
-/

namespace PetChain

/-! ## Mutation queue (`syncService.ts`) -/

/-- `SyncItem['type']`: `'pet' | 'appointment' | 'medication'`. -/
inductive EntityType where
  | pet
  | appointment
  | medication
deriving DecidableEq, Repr

/-- `SyncItem['action']`: `'create' | 'update' | 'delete'`. -/
inductive SyncAction where
  | create
  | update
  | delete
deriving DecidableEq, Repr

/-- The part of the untyped `data: any` payload the queue itself reads:
`item.data.id` (used to build `update`/`delete` endpoint paths).  The rest of
the payload is opaque to the queue and is carried as `rest`. -/
structure ItemData where
  id : String
  rest : String
deriving DecidableEq, Repr

/-- `interface SyncItem` from `syncService.ts`. -/
structure SyncItem where
  id : String
  type : EntityType
  action : SyncAction
  data : ItemData
  timestamp : Nat
  retries : Nat
deriving DecidableEq, Repr

/-- `interface SyncStatus` from `syncService.ts`. -/
structure SyncStatus where
  isSyncing : Bool
  lastSync : Option Nat
  pendingCount : Nat
  failedCount : Nat
deriving DecidableEq, Repr

/-- `MAX_RETRIES = 3`. -/
def MAX_RETRIES : Nat := 3

/-- The initial in-memory `this.syncStatus` value of the `SyncService`
singleton. -/
def initialSyncStatus : SyncStatus :=
  { isSyncing := false, lastSync := none, pendingCount := 0, failedCount := 0 }

/-- State of the `SyncService` singleton together with the `AsyncStorage`
keys it uses: `storedQueue` is the value under `@sync_queue` (`none` when the
key is absent), `storedStatus` the value under `@sync_status`, and
`memStatus` the in-memory `this.syncStatus`. -/
structure SyncState where
  storedQueue : Option (List SyncItem)
  storedStatus : Option SyncStatus
  memStatus : SyncStatus
deriving DecidableEq, Repr

/-- `Partial<SyncStatus>`: an update object whose absent fields leave the
old status field unchanged (object-spread merge `{...old, ...updates}`). -/
structure StatusUpdate where
  isSyncing : Option Bool := none
  lastSync : Option (Option Nat) := none
  pendingCount : Option Nat := none
  failedCount : Option Nat := none
deriving Repr

/-- `{...this.syncStatus, ...updates}`. -/
def mergeStatus (old : SyncStatus) (u : StatusUpdate) : SyncStatus :=
  { isSyncing := u.isSyncing.getD old.isSyncing
    lastSync := u.lastSync.getD old.lastSync
    pendingCount := u.pendingCount.getD old.pendingCount
    failedCount := u.failedCount.getD old.failedCount }

/-- `private async updateStatus(updates)`: merges into the in-memory status
and persists the merged value under `@sync_status`. -/
def updateStatus (st : SyncState) (u : StatusUpdate) : SyncState :=
  let s := mergeStatus st.memStatus u
  { st with memStatus := s, storedStatus := some s }

/-- `private async getQueue()`: the stored queue, or `[]` when the key is
absent. -/
def getQueue (st : SyncState) : List SyncItem :=
  st.storedQueue.getD []

/-- `async getStatus()`: the stored status, or the in-memory status when the
key is absent. -/
def getStatus (st : SyncState) : SyncStatus :=
  st.storedStatus.getD st.memStatus

/-- `async addToQueue(type, action, data)`.  The generated id
`` `${type}_${Date.now()}_${Math.random()}` `` and `Date.now()` are
environment inputs, so they are passed as the `freshId` and `now`
parameters. -/
def addToQueue (st : SyncState) (type : EntityType) (action : SyncAction)
    (data : ItemData) (freshId : String) (now : Nat) : SyncState :=
  let queue := getQueue st
  let item : SyncItem :=
    { id := freshId, type := type, action := action, data := data
      timestamp := now, retries := 0 }
  let queue := queue ++ [item]
  let st := { st with storedQueue := some queue }
  updateStatus st { pendingCount := some queue.length }

/-- `async clearQueue()`: stores `[]` and resets both counts. -/
def clearQueue (st : SyncState) : SyncState :=
  let st := { st with storedQueue := some [] }
  updateStatus st { pendingCount := some 0, failedCount := some 0 }

/-! ### The remote API used by a flush

`syncItem` dispatches one axios call per item; the oracle gives the settled
outcome of that call.  An axios rejection carries the HTTP status of the
error response when one was received. -/

inductive HttpMethod where
  | post
  | put
  | del
deriving DecidableEq, Repr

/-- A rejected axios promise: an HTTP error response with a status, or a
transport-level failure with no response. -/
inductive ApiErr where
  | http (status : Nat)
  | network
deriving DecidableEq, Repr

/-- One dispatched remote call: method, path and the item it was made for
(the trace element used to count dispatches per entry). -/
structure ApiCall where
  method : HttpMethod
  path : String
  itemId : String
deriving DecidableEq, Repr

/-- The remote side of `apiClient.post/put/delete` during a flush: the
settled outcome of dispatching a given queued item. -/
def ApiOracle := SyncItem → Except ApiErr Unit

/-- `` `/${item.type}s` ``. -/
def entityEndpoint : EntityType → String
  | EntityType.pet => "/pets"
  | EntityType.appointment => "/appointments"
  | EntityType.medication => "/medications"

/-- `private async syncItem(item, apiClient)`: builds the endpoint from the
item and dispatches `create → post`, `update → put(endpoint/id)`,
`delete → delete(endpoint/id)`.  Returns the outcome and the call made. -/
def syncItem (item : SyncItem) (api : ApiOracle) : Except ApiErr Unit × ApiCall :=
  let endpoint := entityEndpoint item.type
  match item.action with
  | SyncAction.create => (api item, ⟨HttpMethod.post, endpoint, item.id⟩)
  | SyncAction.update =>
      (api item, ⟨HttpMethod.put, endpoint ++ "/" ++ item.data.id, item.id⟩)
  | SyncAction.delete =>
      (api item, ⟨HttpMethod.del, endpoint ++ "/" ++ item.data.id, item.id⟩)

/-- The `for (const item of queue)` loop body of `sync`: on success the item
is dropped, on any rejection `item.retries++` and the item is kept (pushed
onto `failed`) only while `item.retries < MAX_RETRIES`.  Returns the kept
list and the dispatch trace. -/
def syncLoop (api : ApiOracle) : List SyncItem → List SyncItem × List ApiCall
  | [] => ([], [])
  | item :: rest =>
    let (r, call) := syncItem item api
    let (failed, calls) := syncLoop api rest
    match r with
    | Except.ok _ => (failed, call :: calls)
    | Except.error _ =>
      let item := { item with retries := item.retries + 1 }
      if item.retries < MAX_RETRIES then (item :: failed, call :: calls)
      else (failed, call :: calls)

/-- `async sync(apiClient)`: no-op when `this.syncStatus.isSyncing`;
otherwise marks `isSyncing`, processes the queue in order, stores the kept
list as the new queue and recomputes the persisted status.  Returns the new
state and the list of dispatched calls.  `Date.now()` at the end of the pass
is the `now` parameter. -/
def sync (st : SyncState) (api : ApiOracle) (now : Nat) :
    SyncState × List ApiCall :=
  if st.memStatus.isSyncing then (st, [])
  else
    let st := updateStatus st { isSyncing := some true }
    let queue := getQueue st
    let (failed, calls) := syncLoop api queue
    let st := { st with storedQueue := some failed }
    let st := updateStatus st
      { isSyncing := some false
        lastSync := some (some now)
        pendingCount := some failed.length
        failedCount := some (failed.filter (fun i => decide (i.retries ≥ MAX_RETRIES))).length }
    (st, calls)

/-! ## Conflict resolution (`SyncService.handleConflict`)

`handleConflict(localData, serverData)` reads
`localData.updatedAt || localData.timestamp || 0` — JavaScript `||`, which
falls through on *falsy* values, so a numeric field equal to `0` falls back
exactly like an absent field. -/

/-- The two fields `handleConflict` reads from a conflict side:
`updatedAt` and `timestamp`, each possibly absent.  Values on this path are
JS numbers; the claims use integer timestamps. -/
structure ConflictData where
  updatedAt : Option Int
  timestamp : Option Int
  payload : String
deriving DecidableEq, Repr

/-- `d.updatedAt || d.timestamp || 0`: JS `||` skips falsy values — both an
absent field (`undefined`) and the number `0` fall through. -/
def jsTimeOf (d : ConflictData) : Int :=
  match d.updatedAt with
  | some v => if v = 0 then d.timestamp.getD 0 else v
  | none =>
    match d.timestamp with
    | some w => w
    | none => 0

/-- `async handleConflict(localData, serverData)`:
`serverTime >= localTime ? serverData : localData`. -/
def handleConflict (localData serverData : ConflictData) : ConflictData :=
  let localTime := jsTimeOf localData
  let serverTime := jsTimeOf serverData
  if serverTime ≥ localTime then serverData else localData

/-- The fallback chain exactly as the claim words it: `updatedAt`, falling
back to the enqueue `timestamp` only when `updatedAt` is *absent*, falling
back to `0` when both are absent.  (Written from the claim, to be compared
with the source's `jsTimeOf`.) -/
def claimTimeOf (d : ConflictData) : Int :=
  d.updatedAt.getD (d.timestamp.getD 0)

/-- The resolution rule exactly as the claim words it: the side whose
timestamp is strictly greater wins, remote on equality.  (Written from the
claim, to be compared with the source's `handleConflict`.) -/
def claimResolve (timeOf : ConflictData → Int)
    (localData serverData : ConflictData) : ConflictData :=
  if timeOf serverData > timeOf localData then serverData
  else if timeOf localData > timeOf serverData then localData
  else serverData

/-! ## Authenticated request pipeline (`apiInterceptors.ts`)

`setupInterceptors` installs a request interceptor (attach the stored
access token as the authorization header) and a response interceptor (on a
401 response for a request not yet marked `_retry`: mark it, read the
stored refresh token, and either reject the original error when no refresh
token is stored, or POST `/auth/refresh`; on refresh success store the new
pair and resubmit the original request once; on refresh failure remove both
stored tokens and reject the refresh error).

The embedding `sendRequest` runs one request through this pipeline.  The
remote side is an oracle giving the settled outcome of each transport call:
`attempt n` for the `n`-th submission of the original request, and
`refreshOutcome` for the settled result of the `POST /auth/refresh`
promise.  A trace of transport events is returned so theorems can count
submissions and refresh calls. -/

/-- A rejected axios promise seen by the response interceptor:
`http status` when an error response was received (`error.response?.status`
is that status), `network` when none was (`error.response` undefined). -/
inductive SendError where
  | http (status : Nat)
  | network
deriving DecidableEq, Repr

/-- `error.response?.status === 401`. -/
def isUnauthorized : SendError → Bool
  | SendError.http s => s == 401
  | SendError.network => false

/-- The `@access_token` / `@refresh_token` keys of `AsyncStorage`. -/
structure TokenStore where
  accessToken : Option String
  refreshToken : Option String
deriving DecidableEq, Repr

/-- The remote side of one `send`: the settled outcome of the `n`-th
submission of the original request (`attempt`), and the settled outcome of
the `POST /auth/refresh` promise (`refreshOutcome`, whose success value is
the `{accessToken, refreshToken}` body). -/
structure Remote where
  attempt : Nat → Except SendError String
  refreshOutcome : Except SendError (String × String)

/-- Transport events, for counting: `submit n auth` is the `n`-th
submission of the original request with authorization header `auth`;
`refreshCall` is a `POST /auth/refresh` reaching the remote endpoint. -/
inductive Ev where
  | submit (n : Nat) (auth : Option String)
  | refreshCall
deriving DecidableEq, Repr

/-- Number of submissions of the original request in a trace. -/
def submitCount (t : List Ev) : Nat :=
  (t.filter (fun e => match e with | Ev.submit _ _ => true | _ => false)).length

/-- Number of refresh calls reaching the remote endpoint in a trace. -/
def refreshCount (t : List Ev) : Nat :=
  (t.filter (fun e => e == Ev.refreshCall)).length

/-- One request sent through the intercepted client.

Attempt 0: the request interceptor attaches the stored access token; the
response interceptor then handles the outcome.  On a 401 with `_retry`
unset it sets `_retry`, reads the refresh token (absent → reject the
original error), calls `POST /auth/refresh`; on success it stores the new
token pair, sets the authorization header to the new access token and
resubmits the original request (attempt 1) — whose own 401 finds
`_retry === true` and is rejected as-is; on refresh failure it removes both
stored tokens and rejects the refresh error.  Non-401 errors are rejected
unchanged. -/
def sendRequest (remote : Remote) (st : TokenStore) :
    Except SendError String × TokenStore × List Ev :=
  let auth0 := st.accessToken
  match remote.attempt 0 with
  | Except.ok body => (Except.ok body, st, [Ev.submit 0 auth0])
  | Except.error e =>
    if isUnauthorized e then
      match st.refreshToken with
      | none => (Except.error e, st, [Ev.submit 0 auth0])
      | some _ =>
        match remote.refreshOutcome with
        | Except.ok (newAccess, newRefresh) =>
          -- The resubmitted request settles as whatever attempt 1 yields:
          -- its own 401 (or any other rejection) finds `_retry === true` in
          -- the response interceptor and is rejected unchanged.
          (remote.attempt 1,
           { accessToken := some newAccess, refreshToken := some newRefresh },
           [Ev.submit 0 auth0, Ev.refreshCall, Ev.submit 1 (some newAccess)])
        | Except.error refreshErr =>
          (Except.error refreshErr,
           { accessToken := none, refreshToken := none },
           [Ev.submit 0 auth0, Ev.refreshCall])
    else (Except.error e, st, [Ev.submit 0 auth0])

/-- Two requests whose 401 responses were both received before either
handler refreshed: on the single-threaded event loop the two rejection
handlers then run in turn, each against the token store the previous one
left.  This is the schedule the concurrency claims quantify over. -/
def sendTwo (r1 r2 : Remote) (st : TokenStore) :
    (Except SendError String × Except SendError String) × TokenStore × List Ev :=
  let (res1, st1, t1) := sendRequest r1 st
  let (res2, st2, t2) := sendRequest r2 st1
  ((res1, res2), st2, t1 ++ t2)

/-! ## Token validation (`authService.ts`)

`validateToken(token)` returns `false` for falsy tokens, otherwise decodes
the token (`decodeToken`: split on `'.'`, exactly three parts or throw;
base64-decode the middle part; `JSON.parse` it) and returns
`payload.exp > now`; any exception yields `false`.

The platform pieces (`String.split`, Node's forgiving base64 decoder,
`JSON.parse`, JS property access and the JS `>` coercion) are embedded
below.  Model restrictions, each noted at its definition: JSON numeric
literals are integers (no fraction/exponent), `ToNumber` of a string
accepts optional-sign decimal integers, `ToNumber` of an array only covers
the empty and singleton-number cases, and multi-byte UTF-8 output of the
base64 decoder is replaced character-wise. -/

/-- A parsed JSON value.  Numbers are integers: fractional or exponent
numerals are outside this model (the `exp` claim concerns epoch seconds). -/
inductive Json where
  | null
  | bool (b : Bool)
  | num (v : Int)
  | str (s : List Char)
  | arr (elems : List Json)
  | obj (fields : List (List Char × Json))

/-- JS `String.prototype.split` with a one-character separator: keeps empty
segments, and `""` splits to `[""]`. -/
def jsSplit (sep : Char) : List Char → List (List Char)
  | [] => [[]]
  | c :: rest =>
    let r := jsSplit sep rest
    if c = sep then [] :: r
    else
      match r with
      | seg :: segs => (c :: seg) :: segs
      | [] => [[c]]

/-- The 6-bit value of a base64 character.  Node's `'base64'` decoder also
accepts the url-safe alphabet (`-` and `_`). -/
def b64Val (c : Char) : Option Nat :=
  if 'A' ≤ c ∧ c ≤ 'Z' then some (c.toNat - 'A'.toNat)
  else if 'a' ≤ c ∧ c ≤ 'z' then some (c.toNat - 'a'.toNat + 26)
  else if '0' ≤ c ∧ c ≤ '9' then some (c.toNat - '0'.toNat + 52)
  else if c = '+' ∨ c = '-' then some 62
  else if c = '/' ∨ c = '_' then some 63
  else none

/-- Reassemble bytes from the stream of 6-bit values: 4 values give
3 bytes, a 3-value tail gives 2, a 2-value tail gives 1, a lone value gives
none. -/
def b64Bytes : List Nat → List Nat
  | a :: b :: c :: d :: rest =>
    (a * 4 + b / 16) :: (b % 16 * 16 + c / 4) :: (c % 4 * 64 + d) :: b64Bytes rest
  | [a, b, c] => [a * 4 + b / 16, b % 16 * 16 + c / 4]
  | [a, b] => [a * 4 + b / 16]
  | [_] => []
  | [] => []

/-- `Buffer.from(s, 'base64')`: Node's forgiving decoder — characters
outside the (standard or url-safe) alphabet, including padding `=`, are
ignored. -/
def base64Decode (s : List Char) : List Nat :=
  b64Bytes (s.filterMap b64Val)

/-- `.toString('utf-8')` of a byte buffer, faithful on ASCII output; bytes
≥ 0x80 (multi-byte UTF-8 sequences, which valid JWT payload text does not
need) become the replacement character U+FFFD. -/
def utf8Decode (bs : List Nat) : List Char :=
  bs.map (fun b => if b < 128 then Char.ofNat b else Char.ofNat 0xFFFD)

/-- JSON whitespace. -/
def isJsonWs (c : Char) : Bool :=
  c = ' ' ∨ c = '\t' ∨ c = '\n' ∨ c = '\r'

/-- Skip JSON whitespace. -/
def skipWs : List Char → List Char
  | c :: rest => if isJsonWs c then skipWs rest else c :: rest
  | [] => []

/-- Decimal digit value. -/
def digitVal (c : Char) : Option Nat :=
  if '0' ≤ c ∧ c ≤ '9' then some (c.toNat - '0'.toNat) else none

/-- Hexadecimal digit value (for `\u` escapes). -/
def hexVal (c : Char) : Option Nat :=
  if '0' ≤ c ∧ c ≤ '9' then some (c.toNat - '0'.toNat)
  else if 'a' ≤ c ∧ c ≤ 'f' then some (c.toNat - 'a'.toNat + 10)
  else if 'A' ≤ c ∧ c ≤ 'F' then some (c.toNat - 'A'.toNat + 10)
  else none

/-- Digits of a decimal numeral, greedily. -/
def takeDigits : List Char → Nat → (Nat × Bool × List Char)
  | c :: rest, acc =>
    match digitVal c with
    | some d => takeDigits rest (acc * 10 + d)
    | none => (acc, true, c :: rest)
  | [], acc => (acc, true, [])

/-- Read one or more decimal digits; fails when the first character is not
a digit. -/
def parseDigits (cs : List Char) : Option (Nat × List Char) :=
  match cs with
  | c :: _ =>
    match digitVal c with
    | some _ =>
      let (v, _, rest) := takeDigits cs 0
      some (v, rest)
    | none => none
  | [] => none

/-- One escape sequence after a backslash: the escaped character and the
remaining input. -/
def parseEscape : List Char → Option (Char × List Char)
  | '"' :: r => some ('"', r)
  | '\\' :: r => some ('\\', r)
  | '/' :: r => some ('/', r)
  | 'n' :: r => some ('\n', r)
  | 't' :: r => some ('\t', r)
  | 'r' :: r => some ('\r', r)
  | 'b' :: r => some (Char.ofNat 8, r)
  | 'f' :: r => some (Char.ofNat 12, r)
  | 'u' :: h1 :: h2 :: h3 :: h4 :: r =>
    match hexVal h1, hexVal h2, hexVal h3, hexVal h4 with
    | some a, some b, some c, some d =>
      some (Char.ofNat (((a * 16 + b) * 16 + c) * 16 + d), r)
    | _, _, _, _ => none
  | _ => none

/-- The body of a JSON string after the opening quote, with the standard
escapes (fuel-indexed; callers supply more fuel than the input length, and
every step consumes at least one character, so fuel exhaustion is
unreachable). -/
def parseStringBody : Nat → List Char → Option (List Char × List Char)
  | 0, _ => none
  | _ + 1, [] => none
  | fuel + 1, c0 :: rest =>
    if c0 = '"' then some ([], rest)
    else if c0 = '\\' then
      match parseEscape rest with
      | some (c, tl) => (parseStringBody fuel tl).map (fun (s, r) => (c :: s, r))
      | none => none
    else (parseStringBody fuel rest).map (fun (s, r) => (c0 :: s, r))

mutual

/-- Recursive-descent `JSON.parse` value parser (fuel-indexed; the top call
supplies more fuel than the input length, so fuel exhaustion is
unreachable).  Numeric literals are optional-sign decimal integers; a
fractional part or exponent fails the parse (model restriction noted
above). -/
def parseValue : Nat → List Char → Option (Json × List Char)
  | 0, _ => none
  | fuel + 1, cs =>
    match skipWs cs with
    | [] => none
    | c :: rest =>
      if c = '"' then
        (parseStringBody (rest.length + 1) rest).map (fun (s, r) => (Json.str s, r))
      else if c = '{' then
        parseFields fuel rest true
      else if c = '[' then
        parseElems fuel rest true
      else if c = 't' then
        match rest with
        | 'r' :: 'u' :: 'e' :: r => some (Json.bool true, r)
        | _ => none
      else if c = 'f' then
        match rest with
        | 'a' :: 'l' :: 's' :: 'e' :: r => some (Json.bool false, r)
        | _ => none
      else if c = 'n' then
        match rest with
        | 'u' :: 'l' :: 'l' :: r => some (Json.null, r)
        | _ => none
      else if c = '-' then
        match parseDigits rest with
        | some (v, r) =>
          match r with
          | '.' :: _ => none
          | 'e' :: _ => none
          | 'E' :: _ => none
          | _ => some (Json.num (-(v : Int)), r)
        | none => none
      else
        match parseDigits (c :: rest) with
        | some (v, r) =>
          match r with
          | '.' :: _ => none
          | 'e' :: _ => none
          | 'E' :: _ => none
          | _ => some (Json.num (v : Int), r)
        | none => none

/-- Object member list parser; `first` is true right after `{`. -/
def parseFields : Nat → List Char → Bool → Option (Json × List Char)
  | 0, _, _ => none
  | fuel + 1, cs, first =>
    match skipWs cs with
    | '}' :: rest => if first then some (Json.obj [], rest) else none
    | '"' :: r1 =>
      match parseStringBody (r1.length + 1) r1 with
      | some (key, r2) =>
        match skipWs r2 with
        | ':' :: r3 =>
          match parseValue fuel r3 with
          | some (v, r4) =>
            match skipWs r4 with
            | '}' :: r5 => some (Json.obj [(key, v)], r5)
            | ',' :: r5 =>
              match parseFields fuel r5 false with
              | some (Json.obj tl, r6) => some (Json.obj ((key, v) :: tl), r6)
              | _ => none
            | _ => none
          | none => none
        | _ => none
      | none => none
    | _ => none

/-- Array element list parser; `first` is true right after `[`. -/
def parseElems : Nat → List Char → Bool → Option (Json × List Char)
  | 0, _, _ => none
  | fuel + 1, cs, first =>
    match skipWs cs with
    | ']' :: rest => if first then some (Json.arr [], rest) else none
    | cs' =>
      match parseValue fuel cs' with
      | some (v, r1) =>
        match skipWs r1 with
        | ']' :: r2 => some (Json.arr [v], r2)
        | ',' :: r2 =>
          match parseElems fuel r2 false with
          | some (Json.arr tl, r3) => some (Json.arr (v :: tl), r3)
          | _ => none
        | _ => none
      | none => none

end

/-- `JSON.parse`: parse one value and require only whitespace after it. -/
def jsonParse (cs : List Char) : Option Json :=
  match parseValue (cs.length + 1) cs with
  | some (v, rest) => if skipWs rest = [] then some v else none
  | none => none

/-- JS property read `v.key` on a `JSON.parse` result: a lookup on an
object (`JSON.parse` keeps the *last* of duplicate keys), and `undefined`
(`none`) on any non-object, non-null value.  Reading a property of `null`
throws instead; `validateToken` handles that case separately. -/
def jsGetProp (j : Json) (key : List Char) : Option Json :=
  match j with
  | Json.obj fields => (fields.reverse.find? (fun kv => kv.1 = key)).map (fun kv => kv.2)
  | _ => none

/-- JS `ToNumber` of a string: trimmed; empty → `0`; an optional-sign
decimal integer numeral → its value; anything else → NaN (`none`).  (Real
JS additionally accepts fraction/exponent/hex forms — outside this model,
as noted above.) -/
def strToNumber (s : List Char) : Option Int :=
  let t := (skipWs s).reverse
  let t := (skipWs t).reverse
  match t with
  | [] => some 0
  | '-' :: ds =>
    match parseDigits ds with
    | some (v, []) => some (-(v : Int))
    | _ => none
  | '+' :: ds =>
    match parseDigits ds with
    | some (v, []) => some ((v : Int))
    | _ => none
  | ds =>
    match parseDigits ds with
    | some (v, []) => some ((v : Int))
    | _ => none

/-- JS `ToNumber` of a `JSON.parse` value, as used by the relational
comparison `payload.exp > now`: numbers are themselves, `true`/`false` are
`1`/`0`, `null` is `0`, strings coerce through `strToNumber`, an empty
array is `0` and a singleton numeric array its element (via `String`
round-trip), and everything else is NaN (`none`). -/
def jsToNumber : Json → Option Int
  | Json.num v => some v
  | Json.bool b => some (if b then 1 else 0)
  | Json.null => some 0
  | Json.str s => strToNumber s
  | Json.arr [] => some 0
  | Json.arr [Json.num v] => some v
  | Json.arr _ => none
  | Json.obj _ => none

/-- JS `x > now` where `x` is `payload.exp` (possibly `undefined`): with a
NaN or `undefined` operand the comparison is `false`, otherwise numeric. -/
def jsGreater (x : Option Json) (now : Int) : Bool :=
  match x with
  | none => false
  | some v =>
    match jsToNumber v with
    | none => false
    | some k => k > now

/-- `private decodeToken(token)`: split on `'.'`; throw unless exactly
three parts; base64-decode the middle part to utf-8 and `JSON.parse` it.
`none` models a throw. -/
def decodeToken (token : List Char) : Option Json :=
  match jsSplit '.' token with
  | [_, p1, _] => jsonParse (utf8Decode (base64Decode p1))
  | _ => none

/-- `validateToken(token)`: `false` for a falsy (empty) token; decode, then
`payload.exp > now`; any throw along the way (malformed token, unparsable
payload, property access on a `null` payload) is caught and yields
`false`.  `now = Math.floor(Date.now() / 1000)` is a parameter. -/
def validateToken (token : List Char) (now : Int) : Bool :=
  if token = [] then false
  else
    match decodeToken token with
    | none => false
    | some Json.null => false
    | some payload => jsGreater (jsGetProp payload "exp".data) now

/-! ## Helper lemmas -/

/-- `updateStatus` does not touch the stored queue. -/
theorem getQueue_updateStatus (st : SyncState) (u : StatusUpdate) :
    getQueue (updateStatus st u) = getQueue st := rfl

/-- The status persisted by `updateStatus` is the merged status. -/
theorem getStatus_updateStatus (st : SyncState) (u : StatusUpdate) :
    getStatus (updateStatus st u) = mergeStatus st.memStatus u := rfl

/-- The guard of `sync`: with `isSyncing` set in memory, `sync` returns at
once with no state change and no dispatch. -/
theorem sync_isSyncing (st : SyncState) (api : ApiOracle) (now : Nat)
    (h : st.memStatus.isSyncing = true) : sync st api now = (st, []) := by
  unfold sync
  rw [h]
  simp

/-- The state after a `sync` pass that was not guarded away: the kept list
is stored as the queue and the recomputed status is persisted. -/
theorem sync_run (st : SyncState) (api : ApiOracle) (now : Nat)
    (h : st.memStatus.isSyncing = false) :
    sync st api now =
      (let st1 := updateStatus st { isSyncing := some true }
       let res := syncLoop api (getQueue st)
       let st2 := { st1 with storedQueue := some res.1 }
       (updateStatus st2
          { isSyncing := some false
            lastSync := some (some now)
            pendingCount := some res.1.length
            failedCount :=
              some (res.1.filter (fun i => decide (i.retries ≥ MAX_RETRIES))).length },
        res.2)) := by
  unfold sync
  rw [h]
  rfl

/-- The invariant of claim C10: the persisted `pendingCount` equals the
length of the persisted pending queue. -/
def statusInv (st : SyncState) : Prop :=
  (getStatus st).pendingCount = (getQueue st).length

/-! ## Claim theorems -/

/-- C5 counterexample: the claim's fallback reads `updatedAt` whenever it
is *present*; the code's JS `||` also falls through when `updatedAt` is the
number `0`.  With `local = {updatedAt: 0, timestamp: 5}` and
`remote = {updatedAt: 1}`, the claim picks the remote side (0 < 1) but
`handleConflict` returns the local side (5 > 1). -/
theorem c5_counterexample :
    handleConflict ⟨some 0, some 5, "local"⟩ ⟨some 1, none, "remote"⟩ =
        ⟨some 0, some 5, "local"⟩ ∧
      claimResolve claimTimeOf ⟨some 0, some 5, "local"⟩ ⟨some 1, none, "remote"⟩ =
        ⟨some 1, none, "remote"⟩ ∧
      (⟨some 0, some 5, "local"⟩ : ConflictData) ≠ ⟨some 1, none, "remote"⟩ := by
  refine ⟨rfl, rfl, ?_⟩
  decide

/-- C5 (amended): `resolveConflict` is last-write-wins with remote winning
ties, over the *JS-falsy* effective timestamp (`updatedAt` when present and
nonzero, else `timestamp` when present, else `0`): the side whose effective
timestamp is strictly greater is returned, and the remote side is returned
when they are equal. -/
theorem c5_resolveConflict_lww (localData serverData : ConflictData) :
    handleConflict localData serverData =
      claimResolve jsTimeOf localData serverData := by
  simp only [handleConflict, claimResolve]
  split_ifs <;> first | rfl | omega

/-- C7: calling `flush` while one is running (the in-memory status has
`isSyncing` set) is a no-op: nothing is dispatched through the pipeline and
the stored queue, stored status and in-memory status are all unchanged. -/
theorem c7_flush_reentrant_noop (st : SyncState) (api : ApiOracle) (now : Nat)
    (h : st.memStatus.isSyncing = true) :
    sync st api now = (st, []) := by
  exact sync_isSyncing st api now h

/-- A concrete pending entry used by the C7 witness. -/
def petCreateItem : SyncItem :=
  { id := "pet_1"
    type := EntityType.pet
    action := SyncAction.create
    data := ⟨"p1", "fido"⟩
    timestamp := 5
    retries := 0 }

/-- A concrete mid-flush state for the C7 witness: one pending entry and
`isSyncing` set both in memory and in the store. -/
def midFlushState : SyncState :=
  { storedQueue := some [petCreateItem]
    storedStatus := some
      { isSyncing := true, lastSync := none, pendingCount := 1, failedCount := 0 }
    memStatus :=
      { isSyncing := true, lastSync := none, pendingCount := 1, failedCount := 0 } }

/-- C7 witness: on the concrete mid-flush state, a second `sync` changes
nothing and dispatches nothing. -/
theorem c7_flush_reentrant_noop_witness :
    sync midFlushState (fun _ => Except.ok ()) 99 = (midFlushState, []) :=
  c7_flush_reentrant_noop midFlushState (fun _ => Except.ok ()) 99 rfl

/-- C10: after `addToQueue` and after `clearQueue` the persisted
`pendingCount` equals the length of the persisted queue (and `clearQueue`
leaves an empty queue with both counts zero); `sync` preserves the same
invariant. -/
theorem c10_pendingCount_invariant (st : SyncState) (type : EntityType)
    (action : SyncAction) (data : ItemData) (freshId : String)
    (now now2 : Nat) (api : ApiOracle) :
    statusInv (addToQueue st type action data freshId now) ∧
      (statusInv (clearQueue st) ∧
        getQueue (clearQueue st) = [] ∧
        (getStatus (clearQueue st)).pendingCount = 0 ∧
        (getStatus (clearQueue st)).failedCount = 0) ∧
      (statusInv st → statusInv (sync st api now2).1) := by
  refine ⟨?_, ⟨?_, rfl, rfl, rfl⟩, ?_⟩
  · simp [statusInv, addToQueue, updateStatus, mergeStatus, getQueue, getStatus]
  · simp [statusInv, clearQueue, updateStatus, mergeStatus, getQueue, getStatus]
  · intro hinv
    cases h : st.memStatus.isSyncing with
    | true => rw [sync_isSyncing st api now2 h]; exact hinv
    | false =>
      rw [sync_run st api now2 h]
      simp [statusInv, updateStatus, mergeStatus, getQueue, getStatus]

/-- A concrete idle state with one pending `update` entry and consistent
counts, used by the C10 witness. -/
def idleOneItemState : SyncState :=
  { storedQueue := some
      [{ id := "apt_1"
         type := EntityType.appointment
         action := SyncAction.update
         data := ⟨"a9", "visit"⟩
         timestamp := 3
         retries := 1 }]
    storedStatus := some
      { isSyncing := false, lastSync := some 4, pendingCount := 1, failedCount := 0 }
    memStatus :=
      { isSyncing := false, lastSync := some 4, pendingCount := 1, failedCount := 0 } }

/-- C10 witness: the invariant instances at the concrete idle state, for an
`addToQueue`, for a `clearQueue` and for a `sync` whose every dispatch
fails with a transport error. -/
theorem c10_pendingCount_invariant_witness :
    statusInv (addToQueue idleOneItemState EntityType.pet SyncAction.create
        ⟨"p2", "rex"⟩ "pet_7_z" 8) ∧
      statusInv (clearQueue idleOneItemState) ∧
      statusInv ((sync idleOneItemState
        (fun _ => Except.error ApiErr.network) 9).1) := by
  refine ⟨(c10_pendingCount_invariant idleOneItemState EntityType.pet
      SyncAction.create ⟨"p2", "rex"⟩ "pet_7_z" 8 9
      (fun _ => Except.error ApiErr.network)).1, ?_, ?_⟩
  · exact (c10_pendingCount_invariant idleOneItemState EntityType.pet
      SyncAction.create ⟨"p2", "rex"⟩ "pet_7_z" 8 9
      (fun _ => Except.error ApiErr.network)).2.1.1
  · exact (c10_pendingCount_invariant idleOneItemState EntityType.pet
      SyncAction.create ⟨"p2", "rex"⟩ "pet_7_z" 8 9
      (fun _ => Except.error ApiErr.network)).2.2 rfl

/-- A queued entry whose every remote attempt will fail (C2's failing
input). -/
def alwaysFailingItem : SyncItem :=
  { id := "med_3"
    type := EntityType.medication
    action := SyncAction.create
    data := ⟨"m3", "pill"⟩
    timestamp := 1
    retries := 0 }

/-- A remote that rejects every dispatch with a 500 response. -/
def alwaysFailingApi : ApiOracle := fun _ => Except.error (ApiErr.http 500)

/-- The idle initial state holding only the always-failing entry. -/
def failingQueueState : SyncState :=
  { storedQueue := some [alwaysFailingItem]
    storedStatus := none
    memStatus := initialSyncStatus }

/-- C2: the code drops a maxed-out entry instead of surfacing it.  For the
entry whose every dispatch fails, after the flush cycle in which
`retryCount` reaches `MAX_RETRIES` (the third), the persisted queue is
empty and the persisted `failedCount` is `0` — the entry is in no failed
bucket and has been silently dropped, while the `sync` loop's own
`failedCount` computation (`retries >= MAX_RETRIES` over the kept list)
shows the code meant to count such entries.  The first two cycles keep it
with `retries` incremented, so it is gone exactly at the third. -/
theorem c2_maxed_entry_silently_dropped :
    getQueue (sync failingQueueState alwaysFailingApi 10).1 =
        [{ alwaysFailingItem with retries := 1 }] ∧
      getQueue ((sync (sync failingQueueState alwaysFailingApi 10).1
          alwaysFailingApi 20).1) =
        [{ alwaysFailingItem with retries := 2 }] ∧
      getQueue ((sync ((sync (sync failingQueueState alwaysFailingApi 10).1
          alwaysFailingApi 20).1) alwaysFailingApi 30).1) = [] ∧
      (getStatus ((sync ((sync (sync failingQueueState alwaysFailingApi 10).1
          alwaysFailingApi 20).1) alwaysFailingApi 30).1)).failedCount = 0 ∧
      (getStatus ((sync ((sync (sync failingQueueState alwaysFailingApi 10).1
          alwaysFailingApi 20).1) alwaysFailingApi 30).1)).pendingCount = 0 := by
  refine ⟨rfl, rfl, rfl, rfl, rfl⟩

/-- A queued `delete` entry whose remote target is already gone (C3's
input). -/
def deleteGoneItem : SyncItem :=
  { id := "med_7"
    type := EntityType.medication
    action := SyncAction.delete
    data := ⟨"42", ""⟩
    timestamp := 2
    retries := 0 }

/-- A remote that answers every dispatch with a 404 (not found)
response. -/
def notFoundApi : ApiOracle := fun _ => Except.error (ApiErr.http 404)

/-- The idle initial state holding only the `delete` entry. -/
def deleteGoneState : SyncState :=
  { storedQueue := some [deleteGoneItem]
    storedStatus := none
    memStatus := initialSyncStatus }

/-- C3 counterexample: a `delete` whose dispatch returns 404 is *not*
treated as success — after the flush the entry is still in the pending
queue with `retryCount` incremented to 1, and the next flush dispatches the
same entry again (it is retried). -/
theorem c3_counterexample :
    getQueue (sync deleteGoneState notFoundApi 10).1 =
        [{ deleteGoneItem with retries := 1 }] ∧
      (sync (sync deleteGoneState notFoundApi 10).1 notFoundApi 20).2 =
        [⟨HttpMethod.del, "/medications/42", "med_7"⟩] := by
  refine ⟨rfl, rfl⟩

/-- C3 (amended): a `delete` whose remote dispatch rejects with a 404
not-found response is treated like any other failure: the entry is
dispatched (a `DELETE` on the entity endpoint), its `retryCount` is
incremented, and it stays in the pending queue for the next flush exactly
while the incremented count is below `MAX_RETRIES` (it is dropped, not
moved to a failed bucket, once the count reaches `MAX_RETRIES`). -/
theorem c3_delete_not_found_fails (st : SyncState) (api : ApiOracle)
    (item : SyncItem) (now : Nat)
    (hs : st.memStatus.isSyncing = false)
    (hq : getQueue st = [item])
    (hd : item.action = SyncAction.delete)
    (h404 : api item = Except.error (ApiErr.http 404)) :
    getQueue (sync st api now).1 =
        (if item.retries + 1 < MAX_RETRIES
          then [{ item with retries := item.retries + 1 }] else []) ∧
      (sync st api now).2 =
        [⟨HttpMethod.del, entityEndpoint item.type ++ "/" ++ item.data.id,
          item.id⟩] := by
  rw [sync_run st api now hs]
  simp only [getQueue_updateStatus, hq]
  simp [syncLoop, syncItem, hd, h404, getQueue, updateStatus]
  split_ifs <;> exact ⟨rfl, rfl⟩

/-- C3 witness: the amended behavior at the concrete 404 `delete` input. -/
theorem c3_delete_not_found_fails_witness :
    getQueue (sync deleteGoneState notFoundApi 10).1 =
        [{ deleteGoneItem with retries := 1 }] ∧
      (sync deleteGoneState notFoundApi 10).2 =
        [⟨HttpMethod.del, "/medications/42", "med_7"⟩] := by
  have h := c3_delete_not_found_fails deleteGoneState notFoundApi deleteGoneItem
    10 rfl rfl rfl rfl
  simpa [deleteGoneItem, entityEndpoint, MAX_RETRIES] using h

/-- A stored token pair present before the interceptor scenarios. -/
def storedPair : TokenStore :=
  { accessToken := some "acc0", refreshToken := some "ref0" }

/-- A remote for C1: the original request is rejected with 401 on every
attempt, and the refresh endpoint rejects with a 403 response. -/
def refreshRejectedRemote : Remote :=
  { attempt := fun _ => Except.error (SendError.http 401)
    refreshOutcome := Except.error (SendError.http 403) }

/-- C1 counterexample: with a stored refresh token, a 401 on the first
attempt and a refresh that is rejected by the remote (403), `send` rejects
with the *refresh* error, which differs from the original 401 — the
original authorization failure is masked. -/
theorem c1_counterexample :
    (sendRequest refreshRejectedRemote storedPair).1 =
        Except.error (SendError.http 403) ∧
      (Except.error (SendError.http 403) : Except SendError String) ≠
        Except.error (SendError.http 401) := by
  refine ⟨rfl, ?_⟩
  simp

/-- C1 (amended): when the 401-recovery path finds no stored refresh token
it rejects the *original* 401; but when the remote refresh call itself
fails, `send` clears both stored tokens and rejects the *refresh* error
(the original authorization failure is replaced by it). -/
theorem c1_refresh_failure_propagation (r : Remote) (st : TokenStore)
    (h0 : r.attempt 0 = Except.error (SendError.http 401)) :
    (st.refreshToken = none →
      (sendRequest r st).1 = Except.error (SendError.http 401)) ∧
      (∀ rt re, st.refreshToken = some rt →
        r.refreshOutcome = Except.error re →
        (sendRequest r st).1 = Except.error re ∧
          (sendRequest r st).2.1 = ⟨none, none⟩) := by
  constructor
  · intro hn
    simp [sendRequest, h0, hn, isUnauthorized]
  · intro rt re hrt hre
    simp [sendRequest, h0, hrt, hre, isUnauthorized]

/-- C1 witness: the amended behavior at the concrete remote whose refresh
is rejected with 403. -/
theorem c1_refresh_failure_propagation_witness :
    (sendRequest refreshRejectedRemote storedPair).1 =
        Except.error (SendError.http 403) ∧
      (sendRequest refreshRejectedRemote storedPair).2.1 = ⟨none, none⟩ :=
  (c1_refresh_failure_propagation refreshRejectedRemote storedPair rfl).2
    "ref0" (SendError.http 403) rfl rfl

/-- A remote for C4's first caller: 401 on the first attempt, refresh
succeeds with the pair `(a1, r1)`, the retry succeeds. -/
def caller1Remote : Remote :=
  { attempt := fun n =>
      if n = 0 then Except.error (SendError.http 401) else Except.ok "ok1"
    refreshOutcome := Except.ok ("a1", "r1") }

/-- A remote for C4's second caller: its 401 was received before the first
caller's refresh completed; its own refresh succeeds with `(a2, r2)`. -/
def caller2Remote : Remote :=
  { attempt := fun n =>
      if n = 0 then Except.error (SendError.http 401) else Except.ok "ok2"
    refreshOutcome := Except.ok ("a2", "r2") }

/-- C4 counterexample: two callers that both received a 401 produce *two*
refresh calls to the remote endpoint, not exactly one — there is no
single-flight guard (only the per-request `_retry` flag). -/
theorem c4_counterexample :
    refreshCount (sendTwo caller1Remote caller2Remote storedPair).2.2 = 2 ∧
      refreshCount (sendTwo caller1Remote caller2Remote storedPair).2.2 ≠ 1 := by
  refine ⟨rfl, ?_⟩
  decide

/-- C4 (amended): each request that receives a 401 (with `_retry` unset)
and finds a stored refresh token triggers its *own* refresh call — two such
concurrent callers produce two calls to the refresh endpoint, and each
caller's original request is resubmitted with the access token returned by
its own refresh, not by a shared one. -/
theorem c4_refresh_not_single_flight (r1 r2 : Remote) (st : TokenStore)
    (rt a1 b1 a2 b2 : String)
    (h01 : r1.attempt 0 = Except.error (SendError.http 401))
    (h02 : r2.attempt 0 = Except.error (SendError.http 401))
    (hrt : st.refreshToken = some rt)
    (hr1 : r1.refreshOutcome = Except.ok (a1, b1))
    (hr2 : r2.refreshOutcome = Except.ok (a2, b2)) :
    refreshCount (sendTwo r1 r2 st).2.2 = 2 ∧
      Ev.submit 1 (some a1) ∈ (sendTwo r1 r2 st).2.2 ∧
      Ev.submit 1 (some a2) ∈ (sendTwo r1 r2 st).2.2 := by
  simp [sendTwo, sendRequest, h01, h02, hrt, hr1, hr2, isUnauthorized,
    refreshCount]

/-- C4 witness: the amended behavior at the two concrete callers. -/
theorem c4_refresh_not_single_flight_witness :
    refreshCount (sendTwo caller1Remote caller2Remote storedPair).2.2 = 2 ∧
      Ev.submit 1 (some "a1") ∈ (sendTwo caller1Remote caller2Remote storedPair).2.2 ∧
      Ev.submit 1 (some "a2") ∈ (sendTwo caller1Remote caller2Remote storedPair).2.2 :=
  c4_refresh_not_single_flight caller1Remote caller2Remote storedPair
    "ref0" "a1" "r1" "a2" "r2" rfl rfl rfl rfl rfl

/-- C6: the original request is resubmitted at most once, whatever the
remote answers; and when the 401-refresh-retry path ends in a second 401,
that 401 is propagated to the caller with no further refresh call and no
further resubmission (exactly two submissions and one refresh call in the
trace). -/
theorem c6_retry_exactly_once (r : Remote) (st : TokenStore) :
    submitCount (sendRequest r st).2.2 ≤ 2 ∧
      (∀ rt a b,
        r.attempt 0 = Except.error (SendError.http 401) →
        st.refreshToken = some rt →
        r.refreshOutcome = Except.ok (a, b) →
        r.attempt 1 = Except.error (SendError.http 401) →
        (sendRequest r st).1 = Except.error (SendError.http 401) ∧
          submitCount (sendRequest r st).2.2 = 2 ∧
          refreshCount (sendRequest r st).2.2 = 1) := by
  constructor
  · unfold sendRequest
    cases h0 : r.attempt 0 with
    | ok body => simp [submitCount]
    | error e =>
      cases he : isUnauthorized e with
      | false => simp [he, submitCount]
      | true =>
        simp only [he]
        cases hrt : st.refreshToken with
        | none => simp [submitCount]
        | some rt =>
          cases hro : r.refreshOutcome with
          | ok p => simp [submitCount]
          | error re => simp [submitCount]
  · intro rt a b h0 hrt hro h1
    refine ⟨?_, ?_, ?_⟩ <;>
      simp [sendRequest, h0, hrt, hro, h1, isUnauthorized, submitCount,
        refreshCount]

/-- A remote for the C6 witness: 401 on both the first attempt and the
retry, refresh succeeding in between. -/
def doubleUnauthorizedRemote : Remote :=
  { attempt := fun _ => Except.error (SendError.http 401)
    refreshOutcome := Except.ok ("a1", "r1") }

/-- C6 witness: the retried request's 401 is propagated after exactly two
submissions and one refresh. -/
theorem c6_retry_exactly_once_witness :
    (sendRequest doubleUnauthorizedRemote storedPair).1 =
        Except.error (SendError.http 401) ∧
      submitCount (sendRequest doubleUnauthorizedRemote storedPair).2.2 = 2 ∧
      refreshCount (sendRequest doubleUnauthorizedRemote storedPair).2.2 = 1 :=
  (c6_retry_exactly_once doubleUnauthorizedRemote storedPair).2
    "ref0" "a1" "r1" rfl rfl rfl rfl

/-- C8: when no refresh token is stored, a 401 makes `send` reject with
the original 401 immediately: no call reaches the refresh endpoint, the
stored tokens are untouched, and the trace holds only the one submission. -/
theorem c8_no_refresh_token (r : Remote) (st : TokenStore)
    (hrt : st.refreshToken = none)
    (h0 : r.attempt 0 = Except.error (SendError.http 401)) :
    sendRequest r st =
      (Except.error (SendError.http 401), st, [Ev.submit 0 st.accessToken]) ∧
      refreshCount (sendRequest r st).2.2 = 0 := by
  constructor
  · simp [sendRequest, h0, hrt, isUnauthorized]
  · simp [sendRequest, h0, hrt, isUnauthorized, refreshCount]

/-- A token store holding only an access token, and a remote that answers
401, for the C8 witness. -/
def accessOnlyStore : TokenStore :=
  { accessToken := some "acc0", refreshToken := none }

/-- The C8 witness remote: every attempt is rejected with 401. -/
def unauthorizedRemote : Remote :=
  { attempt := fun _ => Except.error (SendError.http 401)
    refreshOutcome := Except.ok ("aX", "rX") }

/-- C8 witness: with no stored refresh token, the concrete 401 is rejected
as-is and no refresh call appears in the trace. -/
theorem c8_no_refresh_token_witness :
    sendRequest unauthorizedRemote accessOnlyStore =
      (Except.error (SendError.http 401), accessOnlyStore,
        [Ev.submit 0 (some "acc0")]) ∧
      refreshCount (sendRequest unauthorizedRemote accessOnlyStore).2.2 = 0 :=
  c8_no_refresh_token unauthorizedRemote accessOnlyStore rfl rfl

/-- A token whose middle segment is base64 for a payload whose `exp` is
the JSON *string* `"99999999999"`, not a number. -/
def stringExpToken : List Char := "h.eyJleHAiOiI5OTk5OTk5OTk5OSJ9.s".data

/-- `decodeToken` throws (returns `none`) when the token does not have
exactly three dot-separated segments. -/
theorem decodeToken_ne_three (token : List Char)
    (h : (jsSplit '.' token).length ≠ 3) : decodeToken token = none := by
  unfold decodeToken
  rcases hl : jsSplit '.' token with _ | ⟨a, _ | ⟨b, _ | ⟨c, _ | ⟨d, t⟩⟩⟩⟩ <;>
    simp_all

/-- `jsGreater x now` holds exactly when `x` is a defined value whose JS
numeric coercion is defined and strictly greater than `now`. -/
theorem jsGreater_eq_true (x : Option Json) (now : Int) :
    jsGreater x now = true ↔
      ∃ e k, x = some e ∧ jsToNumber e = some k ∧ k > now := by
  cases x with
  | none => simp [jsGreater]
  | some v =>
    cases hn : jsToNumber v with
    | none => simp [jsGreater, hn]
    | some k => simp [jsGreater, hn]

/-- The accepted-token characterization, given a decoded payload. -/
theorem validate_decoded_iff (now : Int) (payload : Json) :
    jsGreater (jsGetProp payload "exp".data) now = true ↔
      ∃ p e k, some payload = some p ∧
        jsGetProp p "exp".data = some e ∧
        jsToNumber e = some k ∧ k > now := by
  rw [jsGreater_eq_true]
  constructor
  · rintro ⟨e, k, hg, hn, hk⟩
    exact ⟨payload, e, k, rfl, hg, hn, hk⟩
  · rintro ⟨p, e, k, hp, hg, hn, hk⟩
    have hpe : p = payload := (Option.some.inj hp).symm
    subst hpe
    exact ⟨e, k, hg, hn, hk⟩

/-- C9 counterexample: the token whose `exp` claim is the JSON string
`"99999999999"` — so its middle segment does *not* decode to an object
with a numeric `exp` field — is accepted as valid at `now = 1700000000`
(JS `>` coerces the string numerically), where the claim requires it to be
reported expired. -/
theorem c9_counterexample :
    validateToken stringExpToken 1700000000 = true ∧
      decodeToken stringExpToken =
        some (Json.obj [("exp".data, Json.str "99999999999".data)]) := by
  exact ⟨rfl, rfl⟩

/-- C9 (amended): a token without exactly three dot-separated segments is
reported expired; and a token is accepted as valid exactly when its middle
segment decodes to a payload whose `exp` property has a defined JS numeric
coercion (a number, but also a numeric string, boolean, null, or singleton
numeric array) strictly greater than the current time.  In particular
malformed tokens and payloads without a coercible `exp` are reported
expired, but a non-numeric `exp` that coerces numerically can still be
accepted. -/
theorem c9_token_validation (token : List Char) (now : Int) :
    ((jsSplit '.' token).length ≠ 3 → validateToken token now = false) ∧
      (validateToken token now = true ↔
        ∃ payload e k, decodeToken token = some payload ∧
          jsGetProp payload "exp".data = some e ∧
          jsToNumber e = some k ∧ k > now) := by
  constructor
  · intro h
    unfold validateToken
    rw [decodeToken_ne_three token h]
    by_cases ht : token = [] <;> simp [ht]
  · by_cases ht : token = []
    · subst ht
      have hd : decodeToken [] = none := rfl
      constructor
      · intro hfalse
        exact (Bool.false_ne_true hfalse).elim
      · rintro ⟨p, e, k, hp, _⟩
        rw [hd] at hp
        exact Option.noConfusion hp
    · unfold validateToken
      rw [if_neg ht]
      cases hd : decodeToken token with
      | none =>
        constructor
        · intro hfalse
          exact (Bool.false_ne_true hfalse).elim
        · rintro ⟨p, e, k, hp, _⟩
          exact Option.noConfusion hp
      | some payload =>
        cases payload with
        | null =>
          constructor
          · intro hfalse
            exact (Bool.false_ne_true hfalse).elim
          · rintro ⟨p, e, k, hp, hg, _⟩
            have hpe : p = Json.null := (Option.some.inj hp).symm
            subst hpe
            exact Option.noConfusion hg
        | bool b => exact validate_decoded_iff now (Json.bool b)
        | num v => exact validate_decoded_iff now (Json.num v)
        | str s => exact validate_decoded_iff now (Json.str s)
        | arr elems => exact validate_decoded_iff now (Json.arr elems)
        | obj fields => exact validate_decoded_iff now (Json.obj fields)

/-- C9 witness: a token with four dot-separated segments is reported
expired. -/
theorem c9_token_validation_witness :
    validateToken "not.a.jwt.token".data 5 = false :=
  (c9_token_validation "not.a.jwt.token".data 5).1 (by decide)

end PetChain
